import Mathlib

/-!
Verification of the ticket-platform front-end client (src/frontend/auth.js)
against its natural-language specification.

The JavaScript page logic is shallowly embedded: the module-level mutable
variables (currentTicketId, currentPage, currentFilters, isSupportUser, ...)
and the DOM pieces the functions read or write become fields of explicit
state records, each event handler becomes a pure function from the state and
the outcomes of its awaited fetches to the new state, and the network calls
a handler issues are returned as an explicit request list (in issue order).
Fetch outcomes are parameters: `none` / `notOk` stands for a response with
`ok = false` or a rejected promise (the code treats both through the same
throw/catch), `some v` / `ok v` for a 2xx response whose parsed JSON body
is `v`.
-/

namespace TicketPlatform

/-- The JavaScript `String.prototype.trim`: removes leading and trailing
whitespace. Embedded as a structurally recursive list trim so that it
evaluates on concrete inputs. -/
def jsTrim (s : String) : String :=
  String.mk
    (((s.data.dropWhile Char.isWhitespace).reverse.dropWhile
        Char.isWhitespace).reverse)

/-- An HTTP response as seen by the client; only the status code matters to
the embedded logic. -/
structure HttpResponse where
  status : Nat
  deriving DecidableEq, Repr

/-- The localStorage slice used by auth.js: the bearer token under
`auth_token` and the serialized profile under `user_data`. -/
structure Storage where
  auth_token : Option String
  user_data : Option String
  deriving DecidableEq, Repr

/-- Observable effects of one call through `authorizedFetch`:
the value returned to the caller (`none` models the bare `return` on 401),
the storage after the call, the navigation target if any, how many times
each storage key was removed, and how many network requests were issued. -/
structure AuthorizedFetchResult where
  returned : Option HttpResponse
  storage : Storage
  redirect : Option String
  tokenRemoveCount : Nat
  userDataRemoveCount : Nat
  fetchCount : Nat
  deriving DecidableEq, Repr

/-- `authorizedFetch` (auth.js lines 2331-2351): performs one fetch; if the
status is 401 it removes `auth_token` and `user_data` from storage, sets
`window.location.href` to `login.html` and returns undefined; otherwise the
response is handed back to the caller unchanged. -/
def authorizedFetch (st : Storage) (resp : HttpResponse) : AuthorizedFetchResult :=
  if resp.status = 401 then
    { returned := none
      storage := { auth_token := none, user_data := none }
      redirect := some "login.html"
      tokenRemoveCount := 1
      userDataRemoveCount := 1
      fetchCount := 1 }
  else
    { returned := some resp
      storage := st
      redirect := none
      tokenRemoveCount := 0
      userDataRemoveCount := 0
      fetchCount := 1 }

/-- A ticket as the client receives it from the API. -/
structure Ticket where
  id : String
  title : String
  description : String
  status : String
  priority : String
  reporter_name : String
  reporter_email : String
  created_at : String
  deriving DecidableEq, Repr

/-- A chat message as received from `GET /tickets/(id)/messages` or echoed
by `POST /tickets/(id)/messages`. -/
structure ChatMessage where
  content : String
  author_name : String
  author_email : String
  is_support : Bool
  created_at : String
  deriving DecidableEq, Repr

/-- The JSON body sent by the chat send-message action. -/
structure MessagePayload where
  content : String
  author_email : String
  author_name : String
  deriving DecidableEq, Repr

/-- The slice of the authenticated user profile the chat uses. -/
structure UserProfile where
  email : String
  full_name : String
  deriving DecidableEq, Repr

/-- Body of a `PATCH /tickets/(id)` request issued by the support console. -/
inductive PatchBody
  | priority (p : String)
  | status (s : String)
  deriving DecidableEq, Repr

/-- The network requests the embedded handlers can issue, recorded in issue
order. -/
inductive ApiRequest
  | getTicket (id : String)
  | getMessages (id : String)
  | postMessages (id : String) (payload : MessagePayload)
  | markRead (id : String)
  | assignTicket (id : String)
  | patchTicket (id : String) (body : PatchBody)
  | getUnassigned
  | getAssigned
  deriving DecidableEq, Repr

/-- A toast produced by `showNotification`. -/
inductive Toast
  | success (msg : String)
  | warning (msg : String)
  | error (msg : String)
  deriving DecidableEq, Repr

/-- `loadUnassignedTickets` (lines 3174-3189): returns immediately when
`isSupportUser` is false, otherwise issues `GET /support/tickets/unassigned`.
Only the request list is modeled; rendering is a DOM effect. -/
def loadUnassignedTickets (isSupportUser : Bool) : List ApiRequest :=
  if isSupportUser then [ApiRequest.getUnassigned] else []

/-- `loadAssignedTickets` (lines 3191-3206): returns immediately when
`isSupportUser` is false, otherwise issues `GET /support/tickets/assigned`. -/
def loadAssignedTickets (isSupportUser : Bool) : List ApiRequest :=
  if isSupportUser then [ApiRequest.getAssigned] else []

/-- State of the support chat modal and the module variables it touches.
`currentTicketId` is the global support-session pointer; `modalVisible`
models the `active` class / `display` style of `#supportTicketModal`;
`displayedTicketId` is the ticket whose details `#supportTicketDetails`
currently renders (`none` when cleared); `chatMessages` is the rendered
message list; `chatPriority` is the value of the `#chatPriority` select,
`none` while the controls block has not been injected; `chatInput` is the
chat text field. -/
structure SupportChatState where
  currentTicketId : Option String
  modalVisible : Bool
  displayedTicketId : Option String
  chatMessages : List ChatMessage
  chatPriority : Option String
  chatInput : String
  deriving DecidableEq, Repr

/-- The page state right after load: no session pointer, modal hidden,
nothing rendered. -/
def initialSupportChatState : SupportChatState :=
  { currentTicketId := none
    modalVisible := false
    displayedTicketId := none
    chatMessages := []
    chatPriority := none
    chatInput := "" }

/-- `renderSupportTicketModal` (lines 3320-3368): renders the ticket details
and the message list, and `addTicketManagementToChat` injects the
priority-select controls only if they do not already exist (the select then
starts at the rendered ticket priority). -/
def renderSupportTicketModal (st : SupportChatState) (ticket : Ticket)
    (messages : List ChatMessage) : SupportChatState :=
  { st with
    displayedTicketId := some ticket.id
    chatMessages := messages
    chatPriority :=
      match st.chatPriority with
      | none => some ticket.priority
      | some p => some p }

/-- `openSupportTicketModal` (lines 3277-3318): sets `currentTicketId` to the
requested id first, then fetches the ticket detail and the message history;
on success renders the modal, shows it and fires the mark-read call; a
failed fetch throws into the catch block, which only shows a toast — the
pointer stays set and the modal visibility is untouched. -/
def openSupportTicketModal (st : SupportChatState) (ticketId : String)
    (ticketFetch : Option Ticket) (messagesFetch : Option (List ChatMessage)) :
    SupportChatState × List ApiRequest :=
  let st1 := { st with currentTicketId := some ticketId }
  match ticketFetch with
  | none => (st1, [ApiRequest.getTicket ticketId])
  | some ticket =>
    match messagesFetch with
    | none => (st1, [ApiRequest.getTicket ticketId, ApiRequest.getMessages ticketId])
    | some messages =>
      let st2 := renderSupportTicketModal st1 ticket messages
      ({ st2 with modalVisible := true },
       [ApiRequest.getTicket ticketId, ApiRequest.getMessages ticketId,
        ApiRequest.markRead ticketId])

/-- The `#closeSupportModal` click handler installed by
`setupChatEventListeners` (lines 3395-3411): hides the modal and resets the
session pointer to null. -/
def closeSupportModalViaX (st : SupportChatState) : SupportChatState :=
  { st with modalVisible := false, currentTicketId := none }

/-- The backdrop click handler (lines 3414-3427): only when the click target
is the modal backdrop itself does it hide the modal and reset the pointer. -/
def closeSupportModalViaBackdrop (st : SupportChatState)
    (targetIsModal : Bool) : SupportChatState :=
  if targetIsModal then
    { st with modalVisible := false, currentTicketId := none }
  else st

/-- `updateTicketPriority` (lines 3770-3818): returns at once when the passed
id is falsy or differs from `currentTicketId`, or when the `#chatPriority`
select is missing; otherwise PATCHes the priority, and on success updates
the visible select/badge from the response and refreshes both queues. -/
def updateTicketPriority (st : SupportChatState) (ticketId : Option String)
    (isSupportUser : Bool) (patchResponse : Option Ticket) :
    SupportChatState × List ApiRequest :=
  match ticketId with
  | none => (st, [])
  | some tid =>
    if tid = "" ∨ some tid ≠ st.currentTicketId then (st, [])
    else
      match st.chatPriority with
      | none => (st, [])
      | some priority =>
        let req := ApiRequest.patchTicket tid (PatchBody.priority priority)
        match patchResponse with
        | none => (st, [req])
        | some updated =>
          ({ st with chatPriority := some updated.priority },
           req :: (loadUnassignedTickets isSupportUser ++
                   loadAssignedTickets isSupportUser))

/-- `closeTicket` (lines 3820-3887): returns at once when the passed id is
falsy or differs from `currentTicketId`; asks for confirmation before any
network; PATCHes `status = закрыт`; on success refreshes both queues, clears
the chat and detail content, hides the modal and resets the pointer; a
failed PATCH only shows a toast and leaves everything as it was. -/
def closeTicket (st : SupportChatState) (ticketId : Option String)
    (confirmed : Bool) (isSupportUser : Bool) (patchResponse : Option Ticket) :
    SupportChatState × List ApiRequest :=
  match ticketId with
  | none => (st, [])
  | some tid =>
    if tid = "" ∨ some tid ≠ st.currentTicketId then (st, [])
    else if ¬ confirmed then (st, [])
    else
      let req := ApiRequest.patchTicket tid (PatchBody.status "закрыт")
      match patchResponse with
      | none => (st, [req])
      | some _ =>
        ({ st with
            chatMessages := []
            displayedTicketId := none
            modalVisible := false
            currentTicketId := none },
         req :: (loadUnassignedTickets isSupportUser ++
                 loadAssignedTickets isSupportUser))

/-- The `sendMessage` closure inside `setupChatEventListeners`
(lines 3433-3482): no-op when the trimmed input is falsy or the session
pointer is falsy; otherwise posts the payload, and on success appends the
echoed message to the chat and clears the input (a failed POST only shows a
toast). -/
def sendMessage (st : SupportChatState) (user : UserProfile)
    (postResponse : Option ChatMessage) : SupportChatState × List ApiRequest :=
  let content := jsTrim st.chatInput
  if content = "" ∨ st.currentTicketId = none ∨ st.currentTicketId = some "" then
    (st, [])
  else
    match st.currentTicketId with
    | none => (st, [])
    | some tid =>
      let payload : MessagePayload :=
        { content := content, author_email := user.email, author_name := user.full_name }
      match postResponse with
      | none => (st, [ApiRequest.postMessages tid payload])
      | some newMessage =>
        ({ st with chatMessages := st.chatMessages ++ [newMessage], chatInput := "" },
         [ApiRequest.postMessages tid payload])

/-- The support-session invariant stated by the spec: the pointer is null
whenever the chat modal is not visible, and non-null and equal to the id of
the ticket open in the modal whenever it is visible. -/
def sessionPointerInvariant (st : SupportChatState) : Prop :=
  (st.modalVisible = false → st.currentTicketId = none) ∧
  (st.modalVisible = true →
    st.currentTicketId ≠ none ∧ st.currentTicketId = st.displayedTicketId)

/-- State of the accept-ticket confirmation modal: the module variable
`currentAcceptTicketId`, the modal visibility, and the `#acceptPriority`
select value. -/
structure AcceptModalState where
  currentAcceptTicketId : Option String
  acceptModalVisible : Bool
  acceptPriority : String
  deriving DecidableEq, Repr

/-- `closeAcceptModal` (lines 3618-3622): hides the modal and clears
`currentAcceptTicketId`. -/
def closeAcceptModal (st : AcceptModalState) : AcceptModalState :=
  { st with acceptModalVisible := false, currentAcceptTicketId := none }

/-- Observable outcome of one run of `confirmAcceptTicket`: the final modal
state, the requests issued in order, and the toasts shown in order. -/
structure ConfirmAcceptResult where
  state : AcceptModalState
  requests : List ApiRequest
  toasts : List Toast
  deriving DecidableEq, Repr

/-- `confirmAcceptTicket` (lines 3655-3717): no-op without a pending accept
id; issues the assign call first; a non-ok assign throws into the catch,
which shows an error toast and changes nothing else; on assign success the
priority PATCH follows, whose failure only downgrades to a warning toast;
either way the flow then shows the success toast, closes the modal and
refreshes both queue lists. -/
def confirmAcceptTicket (st : AcceptModalState) (isSupportUser : Bool)
    (assignOk priorityOk : Bool) : ConfirmAcceptResult :=
  match st.currentAcceptTicketId with
  | none => { state := st, requests := [], toasts := [] }
  | some tid =>
    if ¬ assignOk then
      { state := st
        requests := [ApiRequest.assignTicket tid]
        toasts := [Toast.error "Ошибка при принятии тикета"] }
    else
      let reqs := [ApiRequest.assignTicket tid,
                   ApiRequest.patchTicket tid (PatchBody.priority st.acceptPriority)]
      if ¬ priorityOk then
        { state := closeAcceptModal st
          requests := reqs ++ loadUnassignedTickets isSupportUser ++
                      loadAssignedTickets isSupportUser
          toasts := [Toast.warning "Тикет принят, но не удалось обновить приоритет",
                     Toast.success "Тикет успешно принят!"] }
      else
        { state := closeAcceptModal st
          requests := reqs ++ loadUnassignedTickets isSupportUser ++
                      loadAssignedTickets isSupportUser
          toasts := [Toast.success "Тикет успешно принят!"] }

/-- The status rank map of `loadUserTickets` (lines 2716-2719):
`statusOrder[s] || 1` — a status absent from the map gets rank 1. -/
def statusOrder (s : String) : Nat :=
  if s = "открыт" then 1
  else if s = "в работе" then 2
  else if s = "закрыт" then 3
  else 1

/-- The comparator `(a, b) => (statusOrder[a.status] || 1) - (statusOrder[b.status] || 1)`
as the boolean "a may precede b" relation it induces on a stable sort. -/
def ticketStatusLe (a b : Ticket) : Bool :=
  decide (statusOrder a.status ≤ statusOrder b.status)

/-- The client-side sort performed by `loadUserTickets` before rendering.
`Array.prototype.sort` is required to be stable and to order the array
consistently with the comparator; it is modeled by a stable merge sort under
the induced relation. -/
def sortTicketsByStatus (tickets : List Ticket) : List Ticket :=
  tickets.mergeSort ticketStatusLe

/-- Values of the four filter form controls read by `applyFilters`. -/
structure FilterControls where
  statusFilter : String
  categoryFilter : String
  priorityFilter : String
  searchInput : String
  deriving DecidableEq, Repr

/-- The `currentFilters` object: a key is present only when the control was
truthy (non-empty). -/
structure Filters where
  status : Option String
  category : Option String
  priority : Option String
  search_text : Option String
  deriving DecidableEq, Repr

/-- The list-view module state `applyFilters` touches, plus a log of the
`loadUserTickets` invocations with the page and filters each one read. -/
structure ListViewState where
  currentPage : Nat
  currentFilters : Filters
  loadRequests : List (Nat × Filters)
  deriving DecidableEq, Repr

/-- `applyFilters` (lines 2900-2915): rebuilds `currentFilters` from the four
controls (status, category, priority when non-empty; the trimmed search text
when non-empty after trimming), resets `currentPage` to 1, and then calls
`loadUserTickets`, which reads the just-written page and filters. -/
def applyFilters (c : FilterControls) (st : ListViewState) : ListViewState :=
  let f : Filters :=
    { status := if c.statusFilter = "" then none else some c.statusFilter
      category := if c.categoryFilter = "" then none else some c.categoryFilter
      priority := if c.priorityFilter = "" then none else some c.priorityFilter
      search_text := if jsTrim c.searchInput = "" then none else some (jsTrim c.searchInput) }
  { currentPage := 1
    currentFilters := f
    loadRequests := st.loadRequests ++ [(1, f)] }

/-- How one attempt of `connectWebSocket` (lines 3079-3111) can terminate:
either the `new WebSocket(...)` constructor threw, or the socket close event
fired (the error handler alone only logs). -/
inductive WsAttemptOutcome
  | ctorThrew
  | closed
  deriving DecidableEq, Repr

/-- The reconnect attempts (as setTimeout delays in milliseconds) scheduled
by one run of `connectWebSocket` terminating with the given outcome:
`setTimeout(connectWebSocket, 5000)` in the onclose handler,
`setTimeout(connectWebSocket, 10000)` in the catch block. -/
def connectWebSocketReconnects : WsAttemptOutcome → List Nat
  | WsAttemptOutcome.ctorThrew => [10000]
  | WsAttemptOutcome.closed => [5000]

/-- Given the sequence of outcomes the environment produces, the time at
which connection attempt `n` starts: each terminated attempt schedules the
next one after its fixed delay. -/
def wsAttemptTime (outcome : ℕ → WsAttemptOutcome) : ℕ → ℕ
  | 0 => 0
  | n + 1 => wsAttemptTime outcome n + (connectWebSocketReconnects (outcome n)).sum

/-- The five fields of the create-ticket form. -/
structure CreateTicketForm where
  ticketTitle : String
  ticketCategory : String
  ticketDescription : String
  reporterName : String
  reporterEmail : String
  deriving DecidableEq, Repr

/-- The navigation tabs `switchTab` can activate. -/
inductive Tab
  | home
  | create
  | unassigned
  | assigned
  | profile
  deriving DecidableEq, Repr

/-- The page state touched by a create-ticket submission. -/
structure CreatePageState where
  form : CreateTicketForm
  activeTab : Tab
  userEmail : String
  deriving DecidableEq, Repr

/-- `resetCreateForm` (lines 2889-2897): clears only the editable fields
(title, category, description); the reporter name and email stay. -/
def resetCreateForm (f : CreateTicketForm) : CreateTicketForm :=
  { f with ticketTitle := "", ticketCategory := "", ticketDescription := "" }

/-- `handleTicketSubmit` (lines 2837-2886) after the POST resolved: on a
2xx response it resets the form, switches to the home (list) tab and stores
the reporter email; on failure it only shows a toast. -/
def handleTicketSubmit (st : CreatePageState) (respOk : Bool) : CreatePageState :=
  if respOk then
    { st with
        form := resetCreateForm st.form
        activeTab := Tab.home
        userEmail := st.form.reporterEmail }
  else st

/-- Parsed body of a 2xx `GET /support/check` response. -/
structure SupportCheckBody where
  is_support : Bool
  deriving DecidableEq, Repr

/-- Outcome of the `/support/check` call as `checkSupportStatus` sees it. -/
inductive SupportCheckOutcome
  | ok (body : SupportCheckBody)
  | notOk (status : Nat)
  | threw
  deriving DecidableEq, Repr

/-- `checkSupportStatus` (lines 2407-2418): assigns `isSupportUser` from the
body only on a 2xx response; a non-ok response leaves the flag untouched; a
throw sets it to false in the catch block. -/
def checkSupportStatus (isSupportUser : Bool) (o : SupportCheckOutcome) : Bool :=
  match o with
  | SupportCheckOutcome.ok body => body.is_support
  | SupportCheckOutcome.notOk _ => isSupportUser
  | SupportCheckOutcome.threw => false

/-- `setupSupportInterface` (lines 2421-2443): returns immediately when
`isSupportUser` is false; otherwise injects the support tabs and sections.
The result says whether the support UI was injected. -/
def setupSupportInterface (isSupportUser : Bool) : Bool :=
  if isSupportUser then true else false

/-- Fixture: an open ticket as the API would return it. -/
def ticketExample : Ticket :=
  { id := "t1"
    title := "Не печатает принтер"
    description := "Принтер перестал отвечать"
    status := "открыт"
    priority := "низкий"
    reporter_name := "Иван Иванов"
    reporter_email := "ivan@example.com"
    created_at := "2024-05-01T10:00:00" }

/-- Fixture: a closed ticket. -/
def closedTicketExample : Ticket :=
  { ticketExample with id := "t2", status := "закрыт" }

/-- Fixture: the accept modal opened on ticket t1 with priority selected. -/
def acceptStateExample : AcceptModalState :=
  { currentAcceptTicketId := some "t1"
    acceptModalVisible := true
    acceptPriority := "высокий" }

/-- Fixture: the support agent profile. -/
def supportUserExample : UserProfile :=
  { email := "agent@example.com", full_name := "Анна Агент" }

/-- Claim C3: a 401 from any call through authorizedFetch removes the stored
bearer token and stored user data exactly once, redirects to the login page,
and hands the caller no value; any other status performs no retry (exactly
one fetch) and returns the non-ok response to the caller unchanged. -/
theorem authorizedFetch_spec (st : Storage) (resp : HttpResponse) :
    (resp.status = 401 →
      authorizedFetch st resp =
        { returned := none
          storage := { auth_token := none, user_data := none }
          redirect := some "login.html"
          tokenRemoveCount := 1
          userDataRemoveCount := 1
          fetchCount := 1 }) ∧
    (resp.status ≠ 401 →
      authorizedFetch st resp =
        { returned := some resp
          storage := st
          redirect := none
          tokenRemoveCount := 0
          userDataRemoveCount := 0
          fetchCount := 1 }) := by
  constructor
  · intro h
    simp [authorizedFetch, h]
  · intro h
    simp [authorizedFetch, h]

/-- Witness for authorizedFetch_spec at a 401 and at a 404 response. -/
theorem authorizedFetch_spec_witness :
    authorizedFetch ⟨some "tok", some "usr"⟩ ⟨401⟩ =
      { returned := none
        storage := { auth_token := none, user_data := none }
        redirect := some "login.html"
        tokenRemoveCount := 1
        userDataRemoveCount := 1
        fetchCount := 1 } ∧
    authorizedFetch ⟨some "tok", some "usr"⟩ ⟨404⟩ =
      { returned := some ⟨404⟩
        storage := ⟨some "tok", some "usr"⟩
        redirect := none
        tokenRemoveCount := 0
        userDataRemoveCount := 0
        fetchCount := 1 } :=
  ⟨(authorizedFetch_spec ⟨some "tok", some "usr"⟩ ⟨401⟩).1 rfl,
   (authorizedFetch_spec ⟨some "tok", some "usr"⟩ ⟨404⟩).2 (by decide)⟩

/-- Claim C2: updateTicketPriority and closeTicket invoked with a null id or
an id different from the support-session pointer return without issuing any
network request and without changing any state. -/
theorem staleTicketActions_noop (st : SupportChatState) (tid : Option String)
    (confirmed isSupportUser : Bool) (patchResp patchResp2 : Option Ticket)
    (h : tid = none ∨ tid ≠ st.currentTicketId) :
    updateTicketPriority st tid isSupportUser patchResp = (st, []) ∧
    closeTicket st tid confirmed isSupportUser patchResp2 = (st, []) := by
  cases tid with
  | none => exact ⟨rfl, rfl⟩
  | some s =>
    have hne : some s ≠ st.currentTicketId := by
      rcases h with h | h
      · exact absurd h (by simp)
      · exact h
    constructor
    · simp [updateTicketPriority, hne]
    · simp [closeTicket, hne]

/-- Witness for staleTicketActions_noop: acting on t2 while no session is
open changes nothing and issues no request. -/
theorem staleTicketActions_noop_witness :
    ((some "t2" : Option String) = none ∨
      (some "t2" : Option String) ≠ initialSupportChatState.currentTicketId) ∧
    (updateTicketPriority initialSupportChatState (some "t2") true none =
        (initialSupportChatState, []) ∧
      closeTicket initialSupportChatState (some "t2") true true none =
        (initialSupportChatState, [])) :=
  ⟨Or.inr (by decide),
   staleTicketActions_noop initialSupportChatState (some "t2") true true none none
     (Or.inr (by decide))⟩

/-- Claim C6: every invocation of applyFilters rebuilds the filter set from
the form controls — status, category and priority only when non-empty, the
search text trimmed and only when non-empty — and resets the current page to
1 before triggering the re-fetch, which therefore reads page 1 and the new
filters. -/
theorem applyFilters_spec (c : FilterControls) (st : ListViewState) :
    (applyFilters c st).currentPage = 1 ∧
    (applyFilters c st).currentFilters =
      { status := if c.statusFilter = "" then none else some c.statusFilter
        category := if c.categoryFilter = "" then none else some c.categoryFilter
        priority := if c.priorityFilter = "" then none else some c.priorityFilter
        search_text :=
          if jsTrim c.searchInput = "" then none else some (jsTrim c.searchInput) } ∧
    (applyFilters c st).loadRequests =
      st.loadRequests ++ [(1, (applyFilters c st).currentFilters)] :=
  ⟨rfl, rfl, rfl⟩

/-- Claim C7: each terminated run of connectWebSocket schedules exactly one
reconnect attempt — after 5000 ms when the close event fired, after 10000 ms
when the constructor threw — so for every outcome sequence every attempt is
followed by a next one after the fixed, never growing delay, with no bound
on the number of retries. -/
theorem connectWebSocket_reconnect_spec (outcome : ℕ → WsAttemptOutcome) (n : ℕ) :
    (connectWebSocketReconnects (outcome n)).length = 1 ∧
    connectWebSocketReconnects WsAttemptOutcome.closed = [5000] ∧
    connectWebSocketReconnects WsAttemptOutcome.ctorThrew = [10000] ∧
    wsAttemptTime outcome (n + 1) =
      wsAttemptTime outcome n +
        (if outcome n = WsAttemptOutcome.ctorThrew then 10000 else 5000) := by
  refine ⟨?_, rfl, rfl, ?_⟩
  · cases h : outcome n <;> simp [connectWebSocketReconnects]
  · cases h : outcome n <;> simp [wsAttemptTime, connectWebSocketReconnects, h]

/-- Claim C9: a successful ticket creation clears only the editable form
fields (title, category, description), leaves the reporter identity fields
untouched, and switches the view to the list (home) tab. -/
theorem handleTicketSubmit_success_frame (st : CreatePageState) :
    (handleTicketSubmit st true).form.reporterName = st.form.reporterName ∧
    (handleTicketSubmit st true).form.reporterEmail = st.form.reporterEmail ∧
    (handleTicketSubmit st true).form.ticketTitle = "" ∧
    (handleTicketSubmit st true).form.ticketCategory = "" ∧
    (handleTicketSubmit st true).form.ticketDescription = "" ∧
    (handleTicketSubmit st true).activeTab = Tab.home :=
  ⟨rfl, rfl, rfl, rfl, rfl, rfl⟩

/-- Claim C10: support capability is fail-closed — starting from the initial
false flag, a non-ok or thrown /support/check call leaves isSupportUser
false, setupSupportInterface injects nothing, and the two queue loaders
issue no network call; the flag becomes true only on an ok response whose
body carries is_support = true. -/
theorem supportGate_failClosed (o : SupportCheckOutcome) :
    (∀ s : Nat, o = SupportCheckOutcome.notOk s → checkSupportStatus false o = false) ∧
    (o = SupportCheckOutcome.threw → checkSupportStatus false o = false) ∧
    (checkSupportStatus false o = true ↔ o = SupportCheckOutcome.ok ⟨true⟩) ∧
    setupSupportInterface false = false ∧
    loadUnassignedTickets false = [] ∧
    loadAssignedTickets false = [] := by
  refine ⟨?_, ?_, ?_, rfl, rfl, rfl⟩
  · intro s h
    subst h
    rfl
  · intro h
    subst h
    rfl
  · cases o with
    | ok body =>
      cases body with
      | mk b => cases b <;> simp [checkSupportStatus]
    | notOk s => simp [checkSupportStatus]
    | threw => simp [checkSupportStatus]

/-- Witness for supportGate_failClosed at a 503 response and at a thrown
connection. -/
theorem supportGate_failClosed_witness :
    checkSupportStatus false (SupportCheckOutcome.notOk 503) = false ∧
    checkSupportStatus false SupportCheckOutcome.threw = false :=
  ⟨(supportGate_failClosed (SupportCheckOutcome.notOk 503)).1 503 rfl,
   (supportGate_failClosed SupportCheckOutcome.threw).2.1 rfl⟩

/-- Helper: every branch of closeTicket leaves the state unchanged or
produces the fully closed state (modal hidden, pointer null, content
cleared). -/
theorem closeTicket_state_cases (st : SupportChatState) (tid : Option String)
    (confirmed isSupportUser : Bool) (patchResp : Option Ticket) :
    (closeTicket st tid confirmed isSupportUser patchResp).1 = st ∨
    (closeTicket st tid confirmed isSupportUser patchResp).1 =
      { st with
          chatMessages := []
          displayedTicketId := none
          modalVisible := false
          currentTicketId := none } := by
  cases tid with
  | none => exact Or.inl rfl
  | some s =>
    simp only [closeTicket]
    by_cases h : s = "" ∨ some s ≠ st.currentTicketId
    · rw [if_pos h]
      exact Or.inl rfl
    · rw [if_neg h]
      by_cases hc : ¬ confirmed
      · rw [if_pos hc]
        exact Or.inl rfl
      · rw [if_neg hc]
        cases patchResp with
        | none => exact Or.inl rfl
        | some tk => exact Or.inr rfl

/-- Claim C1 counterexample: from the initial state (modal hidden, pointer
null), opening the support chat on ticket t1 while the detail fetch fails
leaves the modal hidden but the session pointer set to t1, so the claimed
invariant does not hold after the failure path of openSupportTicketModal. -/
theorem openSupportTicketModal_failure_breaks_invariant :
    ¬ sessionPointerInvariant
        (openSupportTicketModal initialSupportChatState "t1" none none).1 := by
  intro h
  have h0 := h.1 rfl
  exact Option.noConfusion h0

/-- Claim C1 (amended): the session-pointer invariant — pointer null when
the chat modal is hidden, non-null and equal to the displayed ticket id
when visible — holds after every successful open, after the × handler,
after the backdrop handler, and after every branch of closeTicket; on the
failure path of openSupportTicketModal, however, the pointer is left set to
the requested ticket id while the modal visibility is unchanged, so there
the invariant is broken whenever the modal stays hidden. -/
theorem supportSession_invariant_amended
    (st : SupportChatState) (hinv : sessionPointerInvariant st)
    (t : String) (ticket : Ticket) (hid : ticket.id = t)
    (msgs : List ChatMessage) (mfetch : Option (List ChatMessage))
    (tid : Option String) (confirmed isSupportUser targetIsModal : Bool)
    (patchResp : Option Ticket) :
    sessionPointerInvariant
      (openSupportTicketModal st t (some ticket) (some msgs)).1 ∧
    sessionPointerInvariant (closeSupportModalViaX st) ∧
    sessionPointerInvariant (closeSupportModalViaBackdrop st targetIsModal) ∧
    sessionPointerInvariant
      (closeTicket st tid confirmed isSupportUser patchResp).1 ∧
    (openSupportTicketModal st t none mfetch).1.currentTicketId = some t ∧
    (openSupportTicketModal st t none mfetch).1.modalVisible = st.modalVisible := by
  subst hid
  refine ⟨?_, ?_, ?_, ?_, rfl, rfl⟩
  · constructor
    · intro h
      exact absurd h (by simp [openSupportTicketModal, renderSupportTicketModal])
    · intro _
      simp [openSupportTicketModal, renderSupportTicketModal]
  · exact ⟨fun _ => rfl, fun h => nomatch h⟩
  · cases targetIsModal with
    | false => simpa [closeSupportModalViaBackdrop] using hinv
    | true => exact ⟨fun _ => rfl, fun h => nomatch h⟩
  · rcases closeTicket_state_cases st tid confirmed isSupportUser patchResp with h | h
    · rw [h]
      exact hinv
    · rw [h]
      exact ⟨fun _ => rfl, fun hvis => nomatch hvis⟩

/-- Witness for supportSession_invariant_amended: a successful open of t1,
both close handlers, a stale closeTicket call, and the failure path, all
from the initial state. -/
theorem supportSession_invariant_amended_witness :
    sessionPointerInvariant
      (openSupportTicketModal initialSupportChatState "t1" (some ticketExample)
        (some [])).1 ∧
    sessionPointerInvariant (closeSupportModalViaX initialSupportChatState) ∧
    sessionPointerInvariant
      (closeSupportModalViaBackdrop initialSupportChatState true) ∧
    sessionPointerInvariant
      (closeTicket initialSupportChatState (some "t9") true true none).1 ∧
    (openSupportTicketModal initialSupportChatState "t1" none
      none).1.currentTicketId = some "t1" ∧
    (openSupportTicketModal initialSupportChatState "t1" none
      none).1.modalVisible = initialSupportChatState.modalVisible :=
  supportSession_invariant_amended initialSupportChatState
    ⟨fun _ => rfl, fun h => nomatch h⟩ "t1" ticketExample rfl [] none
    (some "t9") true true true none

/-- Claim C4: confirmAcceptTicket issues the assignment call first and the
priority PATCH second; a non-ok assignment aborts the flow with an error
toast, no priority call and no state change; after a successful assignment
a failed priority PATCH is non-fatal — the warning toast is shown, the
modal is closed and both queue lists are refreshed. -/
theorem confirmAcceptTicket_spec (st : AcceptModalState) (tid : String)
    (h : st.currentAcceptTicketId = some tid) (priorityOk : Bool) :
    confirmAcceptTicket st true false priorityOk =
      { state := st
        requests := [ApiRequest.assignTicket tid]
        toasts := [Toast.error "Ошибка при принятии тикета"] } ∧
    confirmAcceptTicket st true true false =
      { state := closeAcceptModal st
        requests := [ApiRequest.assignTicket tid,
                     ApiRequest.patchTicket tid (PatchBody.priority st.acceptPriority),
                     ApiRequest.getUnassigned, ApiRequest.getAssigned]
        toasts := [Toast.warning "Тикет принят, но не удалось обновить приоритет",
                   Toast.success "Тикет успешно принят!"] } ∧
    (confirmAcceptTicket st true true priorityOk).state = closeAcceptModal st := by
  refine ⟨?_, ?_, ?_⟩
  · simp [confirmAcceptTicket, h]
  · simp [confirmAcceptTicket, h, loadUnassignedTickets, loadAssignedTickets]
  · cases priorityOk <;> simp [confirmAcceptTicket, h]

/-- Witness for confirmAcceptTicket_spec on the accept modal opened for t1
with priority высокий selected. -/
theorem confirmAcceptTicket_spec_witness :
    confirmAcceptTicket acceptStateExample true false true =
      { state := acceptStateExample
        requests := [ApiRequest.assignTicket "t1"]
        toasts := [Toast.error "Ошибка при принятии тикета"] } ∧
    confirmAcceptTicket acceptStateExample true true false =
      { state := closeAcceptModal acceptStateExample
        requests := [ApiRequest.assignTicket "t1",
                     ApiRequest.patchTicket "t1"
                       (PatchBody.priority acceptStateExample.acceptPriority),
                     ApiRequest.getUnassigned, ApiRequest.getAssigned]
        toasts := [Toast.warning "Тикет принят, но не удалось обновить приоритет",
                   Toast.success "Тикет успешно принят!"] } ∧
    (confirmAcceptTicket acceptStateExample true true true).state =
      closeAcceptModal acceptStateExample :=
  confirmAcceptTicket_spec acceptStateExample "t1" rfl true

/-- Helper: the comparator relation of loadUserTickets is transitive. -/
theorem ticketStatusLe_trans (a b c : Ticket) :
    ticketStatusLe a b → ticketStatusLe b c → ticketStatusLe a c := by
  intro h1 h2
  simp [ticketStatusLe] at *
  omega

/-- Helper: the comparator relation of loadUserTickets is total. -/
theorem ticketStatusLe_total (a b : Ticket) :
    ticketStatusLe a b || ticketStatusLe b a := by
  simp [ticketStatusLe]
  omega

/-- Claim C5: the final-variant loadUserTickets sorts the returned list by
the fixed status rank открыт < в работе < закрыт before rendering, with a
status absent from the rank map receiving the open rank, so in the rendered
order no ticket with status закрыт ever precedes one with status открыт —
regardless of the order the server returned them in (the sort is a
permutation of the response). -/
theorem loadUserTickets_sort_spec (l : List Ticket) (s : String)
    (h1 : s ≠ "открыт") (h2 : s ≠ "в работе") (h3 : s ≠ "закрыт") :
    statusOrder "открыт" < statusOrder "в работе" ∧
    statusOrder "в работе" < statusOrder "закрыт" ∧
    statusOrder s = statusOrder "открыт" ∧
    (sortTicketsByStatus l).Perm l ∧
    (sortTicketsByStatus l).Pairwise
      (fun a b => ¬ (a.status = "закрыт" ∧ b.status = "открыт")) := by
  refine ⟨by decide, by decide, ?_, ?_, ?_⟩
  · simp [statusOrder, h1, h2, h3]
  · exact List.mergeSort_perm l ticketStatusLe
  · have hs : (sortTicketsByStatus l).Pairwise (fun a b => ticketStatusLe a b) :=
      List.sorted_mergeSort ticketStatusLe_trans ticketStatusLe_total l
    refine hs.imp ?_
    intro a b hab hcontr
    obtain ⟨ha, hb⟩ := hcontr
    simp [ticketStatusLe, ha, hb, statusOrder] at hab

/-- Witness for loadUserTickets_sort_spec on a server response returning the
closed ticket before the open one, with в_процессе as the unknown status. -/
theorem loadUserTickets_sort_spec_witness :
    statusOrder "открыт" < statusOrder "в работе" ∧
    statusOrder "в работе" < statusOrder "закрыт" ∧
    statusOrder "в_процессе" = statusOrder "открыт" ∧
    (sortTicketsByStatus [closedTicketExample, ticketExample]).Perm
      [closedTicketExample, ticketExample] ∧
    (sortTicketsByStatus [closedTicketExample, ticketExample]).Pairwise
      (fun a b => ¬ (a.status = "закрыт" ∧ b.status = "открыт")) :=
  loadUserTickets_sort_spec [closedTicketExample, ticketExample] "в_процессе"
    (by decide) (by decide) (by decide)

/-- Claim C8: the chat send action is a no-op issuing zero network calls
whenever the trimmed input is empty or the session pointer is null;
otherwise it posts the payload of content, author email and author name,
appends the echoed response message to the chat, and clears the input. -/
theorem sendMessage_spec (st : SupportChatState) (user : UserProfile)
    (postResp : Option ChatMessage) :
    (jsTrim st.chatInput = "" ∨ st.currentTicketId = none →
      sendMessage st user postResp = (st, [])) ∧
    (∀ tid msg, st.currentTicketId = some tid → tid ≠ "" →
      jsTrim st.chatInput ≠ "" → postResp = some msg →
      sendMessage st user postResp =
        ({ st with chatMessages := st.chatMessages ++ [msg], chatInput := "" },
         [ApiRequest.postMessages tid
            { content := jsTrim st.chatInput
              author_email := user.email
              author_name := user.full_name }])) := by
  constructor
  · intro h
    rcases h with h | h
    · simp [sendMessage, h]
    · simp [sendMessage, h]
  · intro tid msg hid htid hne hresp
    subst hresp
    simp [sendMessage, hid, htid, hne]

/-- Witness for sendMessage_spec: the no-op on the initial state (no open
session), and a successful send in an open chat on t1. -/
theorem sendMessage_spec_witness :
    sendMessage initialSupportChatState supportUserExample none =
      (initialSupportChatState, []) ∧
    sendMessage
      { currentTicketId := some "t1"
        modalVisible := true
        displayedTicketId := some "t1"
        chatMessages := []
        chatPriority := some "низкий"
        chatInput := " привет " }
      supportUserExample
      (some { content := "привет"
              author_name := "Анна Агент"
              author_email := "agent@example.com"
              is_support := true
              created_at := "2024-05-01T10:05:00" }) =
      ({ currentTicketId := some "t1"
         modalVisible := true
         displayedTicketId := some "t1"
         chatMessages := [{ content := "привет"
                            author_name := "Анна Агент"
                            author_email := "agent@example.com"
                            is_support := true
                            created_at := "2024-05-01T10:05:00" }]
         chatPriority := some "низкий"
         chatInput := "" },
       [ApiRequest.postMessages "t1"
          { content := "привет"
            author_email := "agent@example.com"
            author_name := "Анна Агент" }]) := by
  constructor
  · exact (sendMessage_spec initialSupportChatState supportUserExample none).1
      (Or.inr rfl)
  · have h := (sendMessage_spec
      { currentTicketId := some "t1"
        modalVisible := true
        displayedTicketId := some "t1"
        chatMessages := []
        chatPriority := some "низкий"
        chatInput := " привет " }
      supportUserExample
      (some { content := "привет"
              author_name := "Анна Агент"
              author_email := "agent@example.com"
              is_support := true
              created_at := "2024-05-01T10:05:00" })).2 "t1"
      { content := "привет"
        author_name := "Анна Агент"
        author_email := "agent@example.com"
        is_support := true
        created_at := "2024-05-01T10:05:00" } rfl (by decide) (by decide) rfl
    simpa using h

end TicketPlatform
